import Mathlib

/-!
Shallow embedding of `docarray/array/storage/milvus/backend.py`.

The file models the Milvus backend adapter of docarray: the
`always_true_expr` helper, the `MilvusConfig` dataclass, the
configuration-resolution part of `BackendMixin._init_storage`, the
schema-provisioning calls (`_create_or_reuse_collection`,
`_create_or_reuse_offset2id_collection`), the subindex renaming helper
`_ensure_unique_config`, and the payload codec
(`_doc_to_milvus_payload`, `_docs_to_milvus_payload`).

Python dictionaries are modelled as association lists with unique keys
irrelevant to the claims; exceptions are modelled with `Option` /
`Except`; object identity (needed for the deep-copy claim) is modelled
with a small explicit heap.
-/

namespace MilvusBackend

/-! ### Python value / dict model -/

/-- A Python value as it appears in the configuration dictionaries of the
backend: integers, strings, `None`, or a (string-valued) nested dict. -/
inductive PyVal where
  | natV (n : Nat)
  | strV (s : String)
  | noneV
  | dictV (d : List (String × String))
deriving DecidableEq, Repr

/-- A Python dict with string keys, as an association list (first binding
of a key wins, matching dict-key uniqueness). -/
abbrev PyDict := List (String × PyVal)

/-- `d[k]` lookup returning `none` when the key is absent (Python would
raise `KeyError`). -/
def pyLookup (d : PyDict) (k : String) : Option PyVal :=
  (d.find? (fun kv => kv.1 == k)).map (fun kv => kv.2)

/-- `k in d` membership test on a Python dict. -/
def pyContains (d : PyDict) (k : String) : Bool :=
  d.any (fun kv => kv.1 == k)

/-- `d[k] = v` assignment on a Python dict: overwrites in place when the
key exists, otherwise appends the new binding. -/
def pySet (d : PyDict) (k : String) (v : PyVal) : PyDict :=
  if pyContains d k
  then d.map (fun kv => if kv.1 == k then (k, v) else kv)
  else d ++ [(k, v)]

/-! ### `always_true_expr` and a semantics for the expression it builds -/

/-- `always_true_expr` from the source: returns the Milvus filter
expression `(<pk> in ["1"]) or (<pk> not in ["1"])`. -/
def always_true_expr (primary_key : String) : String :=
  "(" ++ primary_key ++ " in [\"1\"]) or (" ++ primary_key ++ " not in [\"1\"])"

/-- Abstract syntax of the fragment of Milvus boolean expressions used by
`always_true_expr`: membership tests on a field and disjunction. -/
inductive MilvusExpr where
  | inList (fieldName : String) (vals : List String)
  | notInList (fieldName : String) (vals : List String)
  | orE (a b : MilvusExpr)
deriving DecidableEq, Repr

/-- Render a list of string literals the way Milvus writes them:
`["v1", "v2", ...]`. -/
def printVals (vs : List String) : String :=
  "[" ++ String.intercalate ", " (vs.map (fun v => "\"" ++ v ++ "\"")) ++ "]"

/-- Concrete syntax of a `MilvusExpr`, matching Milvus filter syntax. -/
def MilvusExpr.print : MilvusExpr → String
  | .inList f vs => f ++ " in " ++ printVals vs
  | .notInList f vs => f ++ " not in " ++ printVals vs
  | .orE a b => "(" ++ a.print ++ ") or (" ++ b.print ++ ")"

/-- Evaluation of a `MilvusExpr` over an environment giving each field's
(string) value for one stored entry. -/
def MilvusExpr.eval (env : String → String) : MilvusExpr → Bool
  | .inList f vs => vs.contains (env f)
  | .notInList f vs => !(vs.contains (env f))
  | .orE a b => a.eval env || b.eval env

/-! ### `MilvusConfig` -/

/-- A Python dict passed through opaquely (e.g. `collection_config`,
`serialize_config`): the adapter never inspects its contents. -/
abbrev Dict := List (String × String)

/-- The `MilvusConfig` dataclass, field for field, with the dataclass
defaults. `port` is `Optional[Union[str, int]]`. -/
structure MilvusConfig where
  n_dim : Nat
  collection_name : Option String := none
  host : String := "localhost"
  port : Option (String ⊕ Nat) := some (Sum.inr 19530)
  distance : String := "IP"
  index_type : String := "HNSW"
  index_config : Option Dict := none
  collection_config : Dict := []
  serialize_config : Dict := []
deriving DecidableEq, Repr

/-! ### `dataclass_from_dict` (docarray.helper, not under src/) -/

/-- Required `Nat`-valued key (`n_dim` has no dataclass default). -/
def getNatReq (d : PyDict) (k : String) : Option Nat :=
  match pyLookup d k with
  | some (.natV n) => some n
  | _ => none

/-- Optional string-valued key whose dataclass default is `None`. -/
def getOptStr (d : PyDict) (k : String) : Option (Option String) :=
  match pyLookup d k with
  | some (.strV s) => some (some s)
  | some .noneV => some none
  | none => some none
  | some _ => none

/-- String-valued key with a string dataclass default. -/
def getStrD (d : PyDict) (k : String) (dflt : String) : Option String :=
  match pyLookup d k with
  | some (.strV s) => some s
  | none => some dflt
  | _ => none

/-- The `port` key: `Optional[Union[str, int]]`, default `19530`. -/
def getPortD (d : PyDict) : Option (Option (String ⊕ Nat)) :=
  match pyLookup d "port" with
  | some (.natV n) => some (some (Sum.inr n))
  | some (.strV s) => some (some (Sum.inl s))
  | some .noneV => some none
  | none => some (some (Sum.inr 19530))
  | some _ => none

/-- Dict-valued key whose dataclass default is `None` (`index_config`). -/
def getOptDict (d : PyDict) (k : String) : Option (Option Dict) :=
  match pyLookup d k with
  | some (.dictV m) => some (some m)
  | some .noneV => some none
  | none => some none
  | some _ => none

/-- Dict-valued key whose dataclass default is the empty dict. -/
def getDictD (d : PyDict) (k : String) : Option Dict :=
  match pyLookup d k with
  | some (.dictV m) => some m
  | none => some []
  | some _ => none

/-- Modelled from the spec: `docarray.helper.dataclass_from_dict` is
repository code not under src/. Per the spec (§4.1), it deserializes an
untyped key-value mapping into the canonical `MilvusConfig` record,
"filling unspecified fields with documented defaults (host=\x22localhost\x22,
port=19530, distance=\x22IP\x22, index kind=\x22HNSW\x22, empty option mappings)";
a mapping that cannot be deserialized (missing `n_dim`, wrongly typed
value) fails. -/
def dataclass_from_dict (d : PyDict) : Option MilvusConfig :=
  match getNatReq d "n_dim", getOptStr d "collection_name",
        getStrD d "host" "localhost", getPortD d,
        getStrD d "distance" "IP", getStrD d "index_type" "HNSW",
        getOptDict d "index_config", getDictD d "collection_config",
        getDictD d "serialize_config" with
  | some n, some cn, some h, some p, some dist, some it, some ic, some cc, some sc =>
      some { n_dim := n, collection_name := cn, host := h, port := p,
             distance := dist, index_type := it, index_config := ic,
             collection_config := cc, serialize_config := sc }
  | _, _, _, _, _, _, _, _, _ => none

/-! ### Configuration resolution (`_init_storage`, lines 49-58) -/

/-- The `config` argument of `_init_storage`:
`Optional[Union[MilvusConfig, Dict]]`. -/
inductive ConfigArg where
  | pyNone
  | typed (c : MilvusConfig)
  | mapping (d : PyDict)
deriving Repr

/-- Python truthiness of the `config` argument, as tested by
`if not config:`—`None` and the empty dict are falsy, a dataclass
instance is always truthy. -/
def configTruthy : ConfigArg → Bool
  | .pyNone => false
  | .typed _ => true
  | .mapping d => !d.isEmpty

/-- The two exceptions the resolution phase can raise: the explicit
`ValueError` for an empty config, and a failure inside
`dataclass_from_dict` for an undeserializable mapping. -/
inductive InitError where
  | emptyConfig
  | invalidMapping
deriving DecidableEq, Repr

/-- Lines 55-57 of the source: if `config.collection_name is None`,
set it to `'docarray__' + uuid.uuid4().hex`; the freshly generated hex
token is passed in as `fresh_hex`. -/
def assignName (c : MilvusConfig) (fresh_hex : String) : MilvusConfig :=
  if c.collection_name = none
  then { c with collection_name := some ("docarray__" ++ fresh_hex) }
  else c

/-- The configuration-resolution part of `_init_storage` (lines 49-58):
reject a falsy config, deserialize a mapping, then default the
collection name. Returns the record assigned to `self._config`. -/
def resolve_config (config : ConfigArg) (fresh_hex : String) :
    Except InitError MilvusConfig :=
  if configTruthy config = false then .error .emptyConfig
  else
    match config with
    | .pyNone => .error .emptyConfig
    | .mapping d =>
        match dataclass_from_dict d with
        | some c => .ok (assignName c fresh_hex)
        | none => .error .invalidMapping
    | .typed c => .ok (assignName c fresh_hex)

/-- The collection name carried by the caller's `config` argument, when
it is a string (set). -/
def argCollectionName : ConfigArg → Option String
  | .pyNone => none
  | .typed c => c.collection_name
  | .mapping d =>
      match pyLookup d "collection_name" with
      | some (.strV s) => some s
      | _ => none

/-- A 32-character lowercase hexadecimal string, the shape of
`uuid.uuid4().hex`. -/
def isHex32 (s : String) : Bool :=
  s.length == 32 && s.toList.all (fun c => c.isDigit || ("abcdef".toList.contains c))

/-! ### Schema provisioning (lines 60-66, 70-118) -/

/-- The pymilvus field types used by the adapter. -/
inductive DataType where
  | VARCHAR
  | FLOAT_VECTOR
deriving DecidableEq, Repr

/-- A pymilvus `FieldSchema` value as constructed by the adapter:
`max_length` for VARCHAR fields, `dim` for FLOAT_VECTOR fields,
`is_primary` defaulting to false. -/
structure FieldSchema where
  name : String
  dtype : DataType
  max_length : Option Nat := none
  dim : Option Nat := none
  is_primary : Bool := false
deriving DecidableEq, Repr

/-- A pymilvus `CollectionSchema`: fields plus a description. -/
structure CollectionSchema where
  fields : List FieldSchema
  description : String
deriving DecidableEq, Repr

/-- The observable content of a `Collection(...)` creation call: the
collection name, its schema, the connection alias passed as `using`, and
the extra keyword options (`**collection_config` or nothing) forwarded to
pymilvus. -/
structure CollectionCall where
  name : String
  schema : CollectionSchema
  usingAlias : String
  kwargs : Dict
deriving DecidableEq, Repr

/-- The observable content of the `connections.connect(...)` call. -/
structure ConnectCall where
  aliasName : String
  host : String
  port : Option (String ⊕ Nat)
deriving DecidableEq, Repr

/-- Line 60 of the source: the fixed connection alias. -/
def connection_alias : String := "docarray_default_connection"

/-- `_create_or_reuse_collection` (lines 70-91): the primary collection,
named by the resolved collection name (always set after `_init_storage`;
`getD` supplies a dummy for the unreachable unset case), with fields
`document_id` / `embedding` / `serialized` and the configured
`collection_config` forwarded as keyword options. -/
def create_or_reuse_collection (cfg : MilvusConfig) : CollectionCall :=
  let document_id : FieldSchema :=
    { name := "document_id", dtype := .VARCHAR, max_length := some 1024,
      is_primary := true }
  let embedding : FieldSchema :=
    { name := "embedding", dtype := .FLOAT_VECTOR, dim := some cfg.n_dim }
  let serialized : FieldSchema :=
    { name := "serialized", dtype := .VARCHAR, max_length := some 65535 }
  { name := cfg.collection_name.getD "",
    schema := { fields := [document_id, embedding, serialized],
                description := "DocumentArray collection" },
    usingAlias := connection_alias,
    kwargs := cfg.collection_config }

/-- `_create_or_reuse_offset2id_collection` (lines 93-118): the auxiliary
collection named `<collection_name>_offset2id`, with fields `offset`
(primary key) / `document_id` / `dummy_vector`, created without
forwarding `collection_config` (the call site comments it out). -/
def create_or_reuse_offset2id_collection (cfg : MilvusConfig) : CollectionCall :=
  let document_id : FieldSchema :=
    { name := "document_id", dtype := .VARCHAR, max_length := some 1024 }
  let offset : FieldSchema :=
    { name := "offset", dtype := .VARCHAR, max_length := some 1024,
      is_primary := true }
  let dummy_vector : FieldSchema :=
    { name := "dummy_vector", dtype := .FLOAT_VECTOR, dim := some 1 }
  { name := cfg.collection_name.getD "" ++ "_offset2id",
    schema := { fields := [offset, document_id, dummy_vector],
                description := "offset2id for DocumentArray" },
    usingAlias := connection_alias,
    kwargs := [] }

/-- `_init_storage` as a whole (lines 43-66): resolve the configuration,
then (only on success) connect and provision the two collections. An
`Except.error` result carries no connect or collection-creation call:
the `ValueError` aborts construction before any of them happens. -/
def init_storage (config : ConfigArg) (fresh_hex : String) :
    Except InitError (MilvusConfig × ConnectCall × CollectionCall × CollectionCall) :=
  match resolve_config config fresh_hex with
  | .error e => .error e
  | .ok c =>
      .ok (c, { aliasName := connection_alias, host := c.host, port := c.port },
           create_or_reuse_collection c, create_or_reuse_offset2id_collection c)

/-! ### `_ensure_unique_config` (lines 120-131) -/

/-- `_ensure_unique_config`: when the subindex config does not carry a
`collection_name` key, rewrite `config_joined['collection_name']` to
itself plus `'_subindex_' + subindex_name`; otherwise return
`config_joined` unchanged. `none` models the `KeyError`/`TypeError`
Python would raise when `config_joined['collection_name']` is absent or
not a string. `config_root` is accepted and ignored, as in the source. -/
def ensure_unique_config (config_root config_subindex config_joined : PyDict)
    (subindex_name : String) : Option PyDict :=
  if pyContains config_subindex "collection_name" = false then
    match pyLookup config_joined "collection_name" with
    | some (.strV s) =>
        some (pySet config_joined "collection_name"
          (.strV (s ++ "_subindex_" ++ subindex_name)))
    | _ => none
  else
    some config_joined

/-! ### Payload codec (lines 133-145) -/

/-- The slice of a docarray `Document` the codec reads: its `id`, its
`embedding` (an opaque vector value of type `α`), and the rest of the
document's content, opaque to the adapter but visible to serialization. -/
structure Document (α : Type) where
  id : String
  embedding : α
  content : String
deriving DecidableEq, Repr

/-- `_doc_to_milvus_payload`: three single-element columns. `ser` models
`Document.to_base64`, repository code not under src/; per the spec the
document exposes a `serialize(options) -> string` operation, and the
codec calls it with `self._config.serialize_config`. -/
def doc_to_milvus_payload {α : Type} (ser : Document α → Dict → String)
    (cfg : MilvusConfig) (doc : Document α) :
    List String × List α × List String :=
  ([doc.id], [doc.embedding], [ser doc cfg.serialize_config])

/-- `_docs_to_milvus_payload`: three parallel columns over the batch.
Column projection `docs[:, 'id']` / `docs[:, 'embedding']` is modelled
from the spec ("a generic ordered-collection type supporting column
projection by field name") as a map over the ordered batch; the third
column is the source's list comprehension. -/
def docs_to_milvus_payload {α : Type} (ser : Document α → Dict → String)
    (cfg : MilvusConfig) (docs : List (Document α)) :
    List String × List α × List String :=
  (docs.map (fun d => d.id), docs.map (fun d => d.embedding),
   docs.map (fun d => ser d cfg.serialize_config))

/-! ### Heap model for the deep-copy claim

`copy.deepcopy(config)` on line 49 matters only through object identity:
mutations of the copy must not reach the caller's object. A minimal heap
of Python objects makes that statement non-vacuous. -/

/-- A heap of Python objects: an allocation counter and the object at
each address (addresses `≥ next` are unreachable garbage values). -/
structure Heap where
  next : Nat
  mem : Nat → ConfigArg

/-- Allocate a fresh object. -/
def Heap.alloc (h : Heap) (v : ConfigArg) : Heap × Nat :=
  ({ next := h.next + 1,
     mem := fun a => if a = h.next then v else h.mem a }, h.next)

/-- Overwrite the object at an address (an attribute assignment). -/
def Heap.write (h : Heap) (a : Nat) (v : ConfigArg) : Heap :=
  { h with mem := fun x => if x = a then v else h.mem x }

/-- `copy.deepcopy`: allocate a fresh object holding the same value. -/
def deepcopy (h : Heap) (a : Nat) : Heap × Nat :=
  h.alloc (h.mem a)

/-- The resolution phase of `_init_storage` run on the heap: deep-copy
the caller's config, then work only on the copy — the empty check, the
mapping deserialization (which builds a further fresh object), and the
in-place `config.collection_name = ...` assignment. Returns the new heap
and the address of the object bound to `self._config`. -/
def init_storage_heap (h : Heap) (callerAddr : Nat) (fresh_hex : String) :
    Except InitError (Heap × Nat) :=
  let hc := deepcopy h callerAddr
  let h1 := hc.1
  let a1 := hc.2
  match h1.mem a1 with
  | .pyNone => .error .emptyConfig
  | .mapping d =>
      if d.isEmpty then .error .emptyConfig
      else
        match dataclass_from_dict d with
        | some c =>
            let ha := h1.alloc (.typed c)
            .ok (ha.1.write ha.2 (.typed (assignName c fresh_hex)), ha.2)
        | none => .error .invalidMapping
  | .typed c =>
      .ok (h1.write a1 (.typed (assignName c fresh_hex)), a1)

/-! ### Concrete fixtures used by the witness theorems -/

/-- A concrete serializer for witnesses: serialize a document from its
content. -/
def serW : Document Nat → Dict → String := fun d _ => d.content ++ "!"

/-- A concrete two-document batch for witnesses. -/
def docsW : List (Document Nat) := [⟨"a", 7, "x"⟩, ⟨"b", 8, "y"⟩]

/-- A concrete configuration for witnesses. -/
def cfgW : MilvusConfig := { n_dim := 2 }

/-- A one-object heap holding a typed configuration at address 0. -/
def heapW : Heap :=
  { next := 1, mem := fun _ => ConfigArg.typed { n_dim := 3 } }

/-- The heap produced by running the resolution phase on `heapW`. -/
def heapW_res : Heap :=
  Heap.write (deepcopy heapW 0).1 1
    (ConfigArg.typed (assignName { n_dim := 3 } "ab"))

/-! ### Theorems -/

/-- Claim C5: encoding one document through `_doc_to_milvus_payload`
yields exactly the three column values that `_docs_to_milvus_payload`
yields on the one-element batch, for any serialization function and
serialization options. -/
theorem single_doc_payload_refines_batch {α : Type}
    (ser : Document α → Dict → String) (cfg : MilvusConfig) (doc : Document α) :
    doc_to_milvus_payload ser cfg doc = docs_to_milvus_payload ser cfg [doc] := rfl

/-- Claim C9: the primary collection's creation call forwards the
configured `collection_config` as collection-level options, while the
offset2id collection's creation call carries no collection-level options
at all. -/
theorem collection_options_policy (cfg : MilvusConfig) :
    (create_or_reuse_collection cfg).kwargs = cfg.collection_config ∧
    (create_or_reuse_offset2id_collection cfg).kwargs = [] :=
  ⟨rfl, rfl⟩

/-- Rendering of the one-element literal list `["1"]`. -/
theorem printVals_one : printVals ["1"] = "[\"1\"]" := rfl

/-- Claim C10: `always_true_expr p` is exactly the string
`(p in ["1"]) or (p not in ["1"])` — the rendering of the disjunction
`p ∈ ["1"] ∨ p ∉ ["1"]` — and that expression evaluates to true in every
environment, i.e. for every possible value of the field `p`, so
filtering with it selects all entries. -/
theorem always_true_expr_is_tautology (p : String) :
    always_true_expr p
      = (MilvusExpr.orE (.inList p ["1"]) (.notInList p ["1"])).print ∧
    ∀ env : String → String,
      (MilvusExpr.orE (.inList p ["1"]) (.notInList p ["1"])).eval env = true := by
  constructor
  · simp [always_true_expr, MilvusExpr.print, printVals_one, String.append_assoc]
  · intro env
    simp [MilvusExpr.eval]

/-- Claim C6: `_init_storage` raises the empty-config `ValueError`
exactly when the supplied configuration is `None` or an empty mapping;
the `Except.error` result carries no connect or collection-creation
call, so the failure precedes any connection or provisioning, and it
aborts construction. A non-empty configuration never triggers this
error. -/
theorem empty_config_rejected_iff (config : ConfigArg) (t : String) :
    init_storage config t = Except.error InitError.emptyConfig ↔
      (config = ConfigArg.pyNone ∨ config = ConfigArg.mapping []) := by
  cases config with
  | pyNone => simp [init_storage, resolve_config, configTruthy]
  | typed c => simp [init_storage, resolve_config, configTruthy]
  | mapping d =>
      cases d with
      | nil => simp [init_storage, resolve_config, configTruthy]
      | cons kv rest =>
          simp only [init_storage, resolve_config, configTruthy, List.isEmpty_cons,
            Bool.not_false]
          constructor
          · intro hcontra
            rcases hdc : dataclass_from_dict (kv :: rest) with _ | c <;>
              simp [hdc] at hcontra
          · intro hcontra
            rcases hcontra with hcontra | hcontra <;> simp at hcontra

/-- Claim C1: with vector dimension 128 and resolved collection name
`nm`, provisioning creates the primary collection with exactly the three
fields `document_id` (VARCHAR, max length 1024, primary key),
`embedding` (128-dimensional float vector) and `serialized` (VARCHAR,
max length 65535), and a second collection named `nm ++ "_offset2id"`
with exactly three fields: `offset` (VARCHAR, max length 1024, primary
key), `document_id` (VARCHAR, max length 1024) and `dummy_vector`
(1-dimensional float vector). (The claim lists the offset2id fields in a
different order; the source declares them as offset, document_id,
dummy_vector.) -/
theorem provisioning_schema_fields (cfg : MilvusConfig) (nm : String)
    (hdim : cfg.n_dim = 128) (hnm : cfg.collection_name = some nm) :
    (create_or_reuse_collection cfg).name = nm ∧
    (create_or_reuse_collection cfg).schema.fields =
      [{ name := "document_id", dtype := .VARCHAR, max_length := some 1024,
         is_primary := true },
       { name := "embedding", dtype := .FLOAT_VECTOR, dim := some 128 },
       { name := "serialized", dtype := .VARCHAR, max_length := some 65535 }] ∧
    (create_or_reuse_collection cfg).schema.fields.length = 3 ∧
    (create_or_reuse_offset2id_collection cfg).name = nm ++ "_offset2id" ∧
    (create_or_reuse_offset2id_collection cfg).schema.fields =
      [{ name := "offset", dtype := .VARCHAR, max_length := some 1024,
         is_primary := true },
       { name := "document_id", dtype := .VARCHAR, max_length := some 1024 },
       { name := "dummy_vector", dtype := .FLOAT_VECTOR, dim := some 1 }] ∧
    (create_or_reuse_offset2id_collection cfg).schema.fields.length = 3 := by
  simp [create_or_reuse_collection, create_or_reuse_offset2id_collection, hnm, hdim]

/-- Claim C1 witness at a concrete configuration. -/
theorem provisioning_schema_fields_witness :
    ({ n_dim := 128, collection_name := some "c" } : MilvusConfig).n_dim = 128 ∧
    (create_or_reuse_collection { n_dim := 128, collection_name := some "c" }).name
      = "c" ∧
    (create_or_reuse_offset2id_collection
        { n_dim := 128, collection_name := some "c" }).name = "c_offset2id" := by
  refine ⟨rfl, ?_, ?_⟩
  · exact (provisioning_schema_fields
      { n_dim := 128, collection_name := some "c" } "c" rfl rfl).1
  · exact (provisioning_schema_fields
      { n_dim := 128, collection_name := some "c" } "c" rfl rfl).2.2.2.1

/-- Claim C4: resolving the mapping `{n_dim: 128}` (no collection name)
succeeds and yields host `"localhost"`, port `19530`, distance `"IP"`,
index type `"HNSW"`, and a collection name that is `"docarray__"`
followed by the freshly generated 32-character hex token. -/
theorem default_resolution_n_dim_only (t : String) (hhex : isHex32 t = true) :
    ∃ c : MilvusConfig,
      resolve_config (ConfigArg.mapping [("n_dim", PyVal.natV 128)]) t
        = Except.ok c ∧
      c.host = "localhost" ∧
      c.port = some (Sum.inr 19530) ∧
      c.distance = "IP" ∧
      c.index_type = "HNSW" ∧
      ∃ token, isHex32 token = true ∧
        c.collection_name = some ("docarray__" ++ token) :=
  ⟨{ n_dim := 128, collection_name := some ("docarray__" ++ t) },
   rfl, rfl, rfl, rfl, rfl, t, hhex, rfl⟩

/-- Claim C4 witness at a concrete 32-character hex token. -/
theorem default_resolution_n_dim_only_witness :
    ∃ c : MilvusConfig,
      resolve_config (ConfigArg.mapping [("n_dim", PyVal.natV 128)])
          "0123456789abcdef0123456789abcdef" = Except.ok c ∧
      c.host = "localhost" ∧
      c.port = some (Sum.inr 19530) ∧
      c.distance = "IP" ∧
      c.index_type = "HNSW" ∧
      ∃ token, isHex32 token = true ∧
        c.collection_name = some ("docarray__" ++ token) :=
  default_resolution_n_dim_only "0123456789abcdef0123456789abcdef" (by decide)

/-- Claim C2: on a batch of `N` documents the three payload columns each
have length exactly `N`, and at every index `i < N` the identifier,
embedding and serialized-string entries are those of document `i`. -/
theorem batch_payload_alignment {α : Type} (ser : Document α → Dict → String)
    (cfg : MilvusConfig) (docs : List (Document α)) (i : Nat)
    (h : i < docs.length) :
    ((docs_to_milvus_payload ser cfg docs).1.length = docs.length ∧
     (docs_to_milvus_payload ser cfg docs).2.1.length = docs.length ∧
     (docs_to_milvus_payload ser cfg docs).2.2.length = docs.length) ∧
    ((docs_to_milvus_payload ser cfg docs).1[i]?
        = some (docs.get ⟨i, h⟩).id ∧
     (docs_to_milvus_payload ser cfg docs).2.1[i]?
        = some (docs.get ⟨i, h⟩).embedding ∧
     (docs_to_milvus_payload ser cfg docs).2.2[i]?
        = some (ser (docs.get ⟨i, h⟩) cfg.serialize_config)) := by
  simp [docs_to_milvus_payload, List.getElem?_eq_getElem, h]

/-- Claim C2 witness on a concrete two-document batch at index 1. -/
theorem batch_payload_alignment_witness :
    ((docs_to_milvus_payload serW cfgW docsW).1.length = docsW.length ∧
     (docs_to_milvus_payload serW cfgW docsW).2.1.length = docsW.length ∧
     (docs_to_milvus_payload serW cfgW docsW).2.2.length = docsW.length) ∧
    ((docs_to_milvus_payload serW cfgW docsW).1[1]?
        = some (docsW.get ⟨1, by decide⟩).id ∧
     (docs_to_milvus_payload serW cfgW docsW).2.1[1]?
        = some (docsW.get ⟨1, by decide⟩).embedding ∧
     (docs_to_milvus_payload serW cfgW docsW).2.2[1]?
        = some (serW (docsW.get ⟨1, by decide⟩) cfgW.serialize_config)) :=
  batch_payload_alignment serW cfgW docsW 1 (by decide)

/-- After a dict assignment, looking the key up returns the new value
(replacement case: the key was present). -/
theorem pyLookup_map_replace (d : PyDict) (k : String) (v : PyVal)
    (hc : pyContains d k = true) :
    pyLookup (d.map (fun kv => if kv.1 == k then (k, v) else kv)) k
      = some v := by
  induction d with
  | nil => simp [pyContains] at hc
  | cons kv rest ih =>
      cases hk : (kv.1 == k) with
      | true => simp [pyLookup, List.find?, hk]
      | false =>
          have hrest : pyContains rest k = true := by
            simpa only [pyContains, List.any_cons, hk, Bool.false_or] using hc
          simpa [pyLookup, List.find?, hk] using ih hrest

/-- After a dict assignment, looking the key up returns the new value
(append case: the key was absent). -/
theorem pyLookup_append_new (d : PyDict) (k : String) (v : PyVal)
    (hc : pyContains d k = false) :
    pyLookup (d ++ [(k, v)]) k = some v := by
  induction d with
  | nil => simp [pyLookup, List.find?]
  | cons kv rest ih =>
      cases hk : (kv.1 == k) with
      | true =>
          simp only [pyContains, List.any_cons, hk, Bool.true_or] at hc
          exact absurd hc (by simp)
      | false =>
          have hrest : pyContains rest k = false := by
            simpa only [pyContains, List.any_cons, hk, Bool.false_or] using hc
          simpa [pyLookup, List.find?, hk] using ih hrest

/-- After a dict assignment, looking the key up returns the new value. -/
theorem pyLookup_pySet (d : PyDict) (k : String) (v : PyVal) :
    pyLookup (pySet d k v) k = some v := by
  cases hc : pyContains d k with
  | true => simpa [pySet, hc] using pyLookup_map_replace d k v hc
  | false => simpa [pySet, hc] using pyLookup_append_new d k v hc

/-- Claim C3 counterexample: the code appends to the JOINED
configuration's collection name, not the root's. With root name `"R"`,
joined name `"X"`, an empty subindex config and subindex id `"S"`, the
returned collection name is `"X_subindex_S"`, not the
`"R_subindex_S"` the claim requires. -/
theorem subindex_root_name_counterexample :
    (ensure_unique_config [("collection_name", PyVal.strV "R")] []
        [("collection_name", PyVal.strV "X")] "S").map
        (fun d => pyLookup d "collection_name")
      = some (some (PyVal.strV "X_subindex_S")) ∧
    "X_subindex_S" ≠ "R" ++ "_subindex_" ++ "S" := by decide

/-- Claim C3 (amended): when the subindex config carries no
`collection_name` key, the returned joined configuration's collection
name is the JOINED configuration's previous collection name followed by
`"_subindex_"` and the subindex id; when the key is present the joined
configuration is returned unchanged. -/
theorem subindex_name_appends_joined
    (config_root config_subindex config_joined : PyDict)
    (subindex_name s : String)
    (hjoined : pyLookup config_joined "collection_name"
      = some (PyVal.strV s)) :
    (pyContains config_subindex "collection_name" = false →
      ensure_unique_config config_root config_subindex config_joined
          subindex_name
        = some (pySet config_joined "collection_name"
            (PyVal.strV (s ++ "_subindex_" ++ subindex_name))) ∧
      (ensure_unique_config config_root config_subindex config_joined
          subindex_name).map (fun d => pyLookup d "collection_name")
        = some (some (PyVal.strV (s ++ "_subindex_" ++ subindex_name)))) ∧
    (pyContains config_subindex "collection_name" = true →
      ensure_unique_config config_root config_subindex config_joined
          subindex_name
        = some config_joined) := by
  constructor
  · intro hc
    have hres : ensure_unique_config config_root config_subindex
        config_joined subindex_name
      = some (pySet config_joined "collection_name"
          (PyVal.strV (s ++ "_subindex_" ++ subindex_name))) := by
      simp [ensure_unique_config, hc, hjoined]
    exact ⟨hres, by rw [hres]; simp [pyLookup_pySet]⟩
  · intro hc
    simp [ensure_unique_config, hc]

/-- Claim C3 witness: root and joined agree on name `"R"`, no override
in the subindex config, subindex id `"S"`. -/
theorem subindex_name_appends_joined_witness :
    ensure_unique_config [("collection_name", PyVal.strV "R")] []
        [("collection_name", PyVal.strV "R")] "S"
      = some (pySet [("collection_name", PyVal.strV "R")] "collection_name"
          (PyVal.strV ("R" ++ "_subindex_" ++ "S"))) ∧
    (ensure_unique_config [("collection_name", PyVal.strV "R")] []
        [("collection_name", PyVal.strV "R")] "S").map
        (fun d => pyLookup d "collection_name")
      = some (some (PyVal.strV ("R" ++ "_subindex_" ++ "S"))) :=
  (subindex_name_appends_joined [("collection_name", PyVal.strV "R")] []
    [("collection_name", PyVal.strV "R")] "S" "R" rfl).1 rfl

/-- `dataclass_from_dict` carries the mapping's `collection_name` entry
into the record unchanged. -/
theorem dataclass_from_dict_collection_name (d : PyDict) (c : MilvusConfig)
    (s : String) (hdc : dataclass_from_dict d = some c)
    (hl : pyLookup d "collection_name" = some (PyVal.strV s)) :
    c.collection_name = some s := by
  unfold dataclass_from_dict at hdc
  split at hdc
  · rename_i n cn hh pp dist it ic cc sc hn hcn hhost hport hdist hit hic hcc hsc
    rw [getOptStr, hl] at hcn
    simp at hcn
    cases hdc
    simp [hcn]
  · exact absurd hdc (by simp)

/-- Claim C7: whenever the caller's configuration (typed record or
mapping) carries a set collection name `s`, successful resolution
preserves it unchanged; the generated-name branch is never taken. -/
theorem collection_name_preserved (config : ConfigArg) (t s : String)
    (c : MilvusConfig) (hset : argCollectionName config = some s)
    (hok : resolve_config config t = Except.ok c) :
    c.collection_name = some s := by
  cases config with
  | pyNone => simp [argCollectionName] at hset
  | typed c0 =>
      simp only [argCollectionName] at hset
      simp only [resolve_config, configTruthy] at hok
      simp at hok
      cases hok
      simp [assignName, hset]
  | mapping d =>
      simp only [argCollectionName] at hset
      rcases hl : pyLookup d "collection_name" with _ | v
      · rw [hl] at hset; simp at hset
      · cases v with
        | strV s0 =>
            rw [hl] at hset
            simp at hset
            cases d with
            | nil => simp [pyLookup] at hl
            | cons kv rest =>
                simp only [resolve_config, configTruthy, List.isEmpty_cons,
                  Bool.not_false] at hok
                simp at hok
                rcases hdc : dataclass_from_dict (kv :: rest) with _ | c0
                · rw [hdc] at hok; simp at hok
                · rw [hdc] at hok
                  simp at hok
                  have hcn : c0.collection_name = some s := by
                    have := dataclass_from_dict_collection_name (kv :: rest)
                      c0 s0 hdc hl
                    rw [this, hset]
                  cases hok
                  simp [assignName, hcn]
        | natV n => rw [hl] at hset; simp at hset
        | noneV => rw [hl] at hset; simp at hset
        | dictV dd => rw [hl] at hset; simp at hset

/-- Claim C7 witness at a typed configuration with a set name. -/
theorem collection_name_preserved_witness :
    (assignName { n_dim := 4, collection_name := some "keepme" } "t").collection_name
      = some "keepme" :=
  collection_name_preserved
    (ConfigArg.typed { n_dim := 4, collection_name := some "keepme" }) "t"
    "keepme" (assignName { n_dim := 4, collection_name := some "keepme" } "t")
    rfl rfl

/-- Claim C8: resolution operates on a deep copy, so whenever the
resolution phase of `_init_storage` succeeds, the heap cell at the
caller's address still holds the caller's original configuration object,
and the object bound to `self._config` (address `a2`) is a different
object from the caller's — mutations to it (default filling, generated
collection name) cannot reach the caller's input. -/
theorem deepcopy_frame (h : Heap) (callerAddr : Nat) (t : String)
    (hlt : callerAddr < h.next) (h2 : Heap) (a2 : Nat)
    (hok : init_storage_heap h callerAddr t = Except.ok (h2, a2)) :
    h2.mem callerAddr = h.mem callerAddr ∧ a2 ≠ callerAddr := by
  have hne : callerAddr ≠ h.next := Nat.ne_of_lt hlt
  have hne1 : callerAddr ≠ h.next + 1 := by omega
  rcases hm : h.mem callerAddr with _ | c | d
  · rw [init_storage_heap] at hok
    simp [deepcopy, Heap.alloc, hm] at hok
  · rw [init_storage_heap] at hok
    simp [deepcopy, Heap.alloc, Heap.write, hm] at hok
    obtain ⟨hh2, ha2⟩ := hok
    subst ha2
    constructor
    · rw [← hh2]
      simp [hne, hm]
    · omega
  · cases hd : d.isEmpty with
    | true =>
        rw [init_storage_heap] at hok
        simp [deepcopy, Heap.alloc, hm, hd] at hok
    | false =>
        rcases hdc : dataclass_from_dict d with _ | c
        · rw [init_storage_heap] at hok
          simp [deepcopy, Heap.alloc, hm, hd, hdc] at hok
        · rw [init_storage_heap] at hok
          simp [deepcopy, Heap.alloc, Heap.write, hm, hd, hdc] at hok
          obtain ⟨hh2, ha2⟩ := hok
          subst ha2
          constructor
          · rw [← hh2]
            simp [hne, hne1, hm]
          · omega

/-- Claim C8 witness: on the concrete heap `heapW` the caller's object
at address 0 is unchanged and the resolved object lives at address 1. -/
theorem deepcopy_frame_witness :
    heapW_res.mem 0 = heapW.mem 0 ∧ 1 ≠ 0 :=
  deepcopy_frame heapW 0 "ab" (by decide) heapW_res 1 rfl

end MilvusBackend
